import Mathlib

/-!
# Verification of the FastBus seat-inventory and booking core

A shallow embedding of the booking/inventory/promo core of the FastBus
ticketing backend (files `bookings.py`, `app/models/trip.py`,
`app/models/booking.py`, `app/routes/admin_bookings.py`,
`app/routes/payments.py`, `admin_trips.py`).

Modelling conventions:
* SQLAlchemy rows become Lean structures; the database session becomes an
  explicit `DB` record of lists, threaded through every operation.
* Monetary values (`Numeric` columns converted with `float(...)` in the
  source) are modelled as exact rationals `ℚ`; Python's `round(x, 2)`
  (round-half-to-even on the value) is modelled by `round2`.
* `datetime` values are modelled as integers (`Int`); `datetime.utcnow()`
  becomes an explicit `now` parameter, and comparisons keep their direction.
* Python integers are modelled as `Int` where they may be mutated
  (counters), `Nat` for identifiers.
* Each HTTP handler becomes a function `DB → args → DB × Except ApiError β`:
  every early `return jsonify(error)` in the source happens before any
  session mutation (or triggers a rollback), so the error branches return
  the input `DB` unchanged exactly as the source does.
* Python truthiness of optional numeric columns (`if self.min_purchase_amount:`)
  is modelled by `pyTruthy` (`None` and `0` are falsy); `is not None` tests
  are modelled by `Option.isSome`.
-/

namespace FastBus

/-- `TripStatus` enum from `app/models/trip.py`. -/
inductive TripStatus
  | scheduled | boarding | inTransit | completed | cancelled
  deriving DecidableEq

/-- `SeatStatus` enum from `app/models/trip.py`. -/
inductive SeatStatus
  | available | booked | blocked
  deriving DecidableEq

/-- `BookingStatus` enum from `app/models/booking.py`. -/
inductive BookingStatus
  | pending | confirmed | cancelled | completed
  deriving DecidableEq

/-- `PaymentStatus` enum from `app/models/booking.py`. -/
inductive PaymentStatus
  | unpaid | paid | refunded | failed
  deriving DecidableEq

/-- `TransactionStatus` enum of the payment attempt records. The model file
`app/models/payment.py` is not under src/; the variants are those its
callers `app/routes/payments.py` and `app/routes/admin_payments.py` use. -/
inductive TransactionStatus
  | initiated | processing | success | failed | cancelled | refunded
  deriving DecidableEq

/-- `Trip` row (`app/models/trip.py`). Fields not touched by the booking
core (route strings, arrival time, operator) are omitted. -/
structure Trip where
  id : Nat
  departure_time : Int
  base_fare : ℚ
  total_seats : Int
  available_seats : Int
  status : TripStatus
  deriving DecidableEq

/-- `Seat` row (`app/models/trip.py`). -/
structure Seat where
  id : Nat
  trip_id : Nat
  status : SeatStatus
  price_multiplier : ℚ
  booking_id : Option Nat
  deriving DecidableEq

/-- `Booking` row (`app/models/booking.py`). Passenger contact fields and
the reference string are omitted (not used by any claim). -/
structure Booking where
  id : Nat
  user_id : Nat
  trip_id : Nat
  promo_code_id : Option Nat
  subtotal : ℚ
  discount_amount : ℚ
  total_amount : ℚ
  booking_status : BookingStatus
  payment_status : PaymentStatus
  num_seats : Nat
  deriving DecidableEq

/-- `PromoCode` row (`app/models/booking.py`). -/
structure PromoCode where
  id : Nat
  code : String
  discount_percentage : ℚ
  max_discount_amount : Option ℚ
  min_purchase_amount : Option ℚ
  usage_limit : Option Int
  used_count : Int
  usage_per_user : Option Int
  valid_from : Int
  valid_until : Int
  is_active : Bool
  deriving DecidableEq

/-- `Payment` attempt row, restricted to the fields the payment-status
bridge reads. The model file `app/models/payment.py` is not under src/;
the fields are those its caller `app/routes/payments.py` reads. -/
structure Payment where
  id : Nat
  booking_id : Nat
  user_id : Nat
  status : TransactionStatus
  deriving DecidableEq

/-- The relational store reachable from the booking core. -/
structure DB where
  trips : List Trip
  seats : List Seat
  bookings : List Booking
  promos : List PromoCode
  payments : List Payment
  next_booking_id : Nat
  next_payment_id : Nat
  deriving DecidableEq

/-- Python truthiness of an optional numeric column: `None` and `0` are falsy. -/
def pyTruthy : Option ℚ → Bool
  | none => false
  | some q => decide (q ≠ 0)

/-- Round a rational to the nearest integer, ties to even
(the rounding Python 3's `round` applies to the value). -/
def roundHalfEven (q : ℚ) : ℤ :=
  if q - ⌊q⌋ < 1/2 then ⌊q⌋
  else if (1:ℚ)/2 < q - ⌊q⌋ then ⌊q⌋ + 1
  else if ⌊q⌋ % 2 = 0 then ⌊q⌋ else ⌊q⌋ + 1

/-- Python `round(x, 2)` modelled on exact rationals. -/
def round2 (q : ℚ) : ℚ := (roundHalfEven (q * 100) : ℚ) / 100

/-- Reason component of `PromoCode.is_valid`'s failure messages. -/
inductive PromoInvalidReason
  | inactive | notYetValid | expired | usageLimitReached
  deriving DecidableEq

/-- `PromoCode.is_valid` (`app/models/booking.py`): `none` means valid,
`some r` carries the failure reason string's kind. -/
def PromoCode.is_valid (p : PromoCode) (now : Int) : Option PromoInvalidReason :=
  if !p.is_active then some .inactive
  else if now < p.valid_from then some .notYetValid
  else if p.valid_until < now then some .expired
  else if p.usage_limit.isSome && decide (p.usage_limit.getD 0 ≤ p.used_count) then
    some .usageLimitReached
  else none

/-- Number of the user's bookings that reference the promo code, with no
restriction on booking status (the query in
`PromoCode.check_user_eligibility`). -/
def userPromoUsage (db : DB) (uid : Nat) (pid : Nat) : Nat :=
  (db.bookings.filter fun b => decide (b.user_id = uid) && decide (b.promo_code_id = some pid)).length

/-- `PromoCode.check_user_eligibility` (`app/models/booking.py`). -/
def PromoCode.check_user_eligibility (p : PromoCode) (db : DB) (uid : Nat) : Bool :=
  match p.usage_per_user with
  | none => true
  | some k => decide ((userPromoUsage db uid p.id : Int) < k)

/-- `PromoCode.calculate_discount` (`app/models/booking.py`). -/
def PromoCode.calculate_discount (p : PromoCode) (amount : ℚ) : ℚ :=
  if pyTruthy p.min_purchase_amount && decide (amount < p.min_purchase_amount.getD 0) then 0
  else
    let d := amount * (p.discount_percentage / 100)
    let d := if pyTruthy p.max_discount_amount then min d (p.max_discount_amount.getD 0) else d
    round2 d

/-- `Seat.calculate_price` (`app/models/trip.py`): `base_fare × price_multiplier`. -/
def Seat.calculate_price (s : Seat) (t : Trip) : ℚ := t.base_fare * s.price_multiplier

/-- The structured failures the handlers return (§7 of the design). Each
constructor corresponds to one early `return jsonify({'error': ...})` of the
modelled handlers. -/
inductive ApiError
  | invalidSeatSelection
  | tripNotFound
  | tripNotBookable
  | tripDeparted
  | seatsNotFound
  | seatUnavailable
  | insufficientCapacity
  | promoNotFound
  | promoInvalid (r : PromoInvalidReason)
  | promoIneligible
  | promoMinimumNotMet
  | bookingNotFound
  | unauthorized
  | alreadyCancelled
  | alreadyCompleted
  | cannotCancelDeparted
  | bookingCancelledError
  | alreadyPaid
  | invalidStatus
  | seatsNoLongerAvailable
  | seatNotFound
  | seatInUse
  | paymentNotFound
  | paymentAlreadyProcessed
  deriving DecidableEq

instance {ε α : Type} [DecidableEq ε] [DecidableEq α] : DecidableEq (Except ε α) := fun a b =>
  match a, b with
  | .error e, .error f => decidable_of_iff (e = f) (by simp)
  | .ok x, .ok y => decidable_of_iff (x = y) (by simp)
  | .error _, .ok _ => isFalse (fun h => Except.noConfusion h)
  | .ok _, .error _ => isFalse (fun h => Except.noConfusion h)

/-- `Trip.query.get(trip_id)`. -/
def findTrip (db : DB) (tid : Nat) : Option Trip :=
  db.trips.find? fun t => t.id == tid

/-- `Booking.query.get(booking_id)`. -/
def findBooking (db : DB) (bid : Nat) : Option Booking :=
  db.bookings.find? fun b => b.id == bid

/-- `PromoCode.query.filter_by(code=...).first()`. -/
def findPromoByCode (db : DB) (c : String) : Option PromoCode :=
  db.promos.find? fun p => p.code == c

/-- `PromoCode.query.get(pid)`. -/
def findPromo (db : DB) (pid : Nat) : Option PromoCode :=
  db.promos.find? fun p => p.id == pid

/-- `Seat.query.filter_by(id=seat_id, trip_id=trip_id).first()`. -/
def findSeat (db : DB) (sid tid : Nat) : Option Seat :=
  db.seats.find? fun s => s.id == sid && s.trip_id == tid

/-- The seat rows the booking-create handler loads:
`Seat.query.filter(Seat.id.in_(seat_ids), Seat.trip_id == trip_id).all()`. -/
def requestedSeats (db : DB) (tid : Nat) (seat_ids : List Nat) : List Seat :=
  db.seats.filter fun s => decide (s.id ∈ seat_ids) && decide (s.trip_id = tid)

/-- The promo-code portion of `create_booking` (`bookings.py` lines 138–161):
look up the code, run `is_valid`, `check_user_eligibility` and the
minimum-purchase check, in the source's order. Returns the promo row to
apply, or `none` when no code was supplied. -/
def resolvePromo (db : DB) (now : Int) (uid : Nat) (subtotal : ℚ) :
    Option String → Except ApiError (Option PromoCode)
  | none => .ok none
  | some cstr =>
    match findPromoByCode db cstr with
    | none => .error .promoNotFound
    | some p =>
      match p.is_valid now with
      | some r => .error (.promoInvalid r)
      | none =>
        if !p.check_user_eligibility db uid then .error .promoIneligible
        else if pyTruthy p.min_purchase_amount && decide (subtotal < p.min_purchase_amount.getD 0) then
          .error .promoMinimumNotMet
        else .ok (some p)

/-- `subtotal = round(sum(seat.calculate_price() for seat in seats), 2)`
(`bookings.py` lines 130–131). -/
def createSubtotal (db : DB) (tid : Nat) (seat_ids : List Nat) (trip : Trip) : ℚ :=
  round2 ((requestedSeats db tid seat_ids).map fun s => s.calculate_price trip).sum

/-- The discount recorded on the booking: `calculate_discount` of the applied
promo, `0.0` when none was applied (`bookings.py` lines 133–161). -/
def promoDiscount (promoOpt : Option PromoCode) (subtotal : ℚ) : ℚ :=
  match promoOpt with
  | some p => p.calculate_discount subtotal
  | none => 0

/-- The booking row `create_booking` inserts on success
(`bookings.py` lines 167–182). -/
def mkBooking (db : DB) (uid tid : Nat) (promoOpt : Option PromoCode)
    (subtotal discount_amount : ℚ) (n : Nat) : Booking :=
  { id := db.next_booking_id
    user_id := uid
    trip_id := tid
    promo_code_id := promoOpt.map (·.id)
    subtotal := subtotal
    discount_amount := discount_amount
    total_amount := round2 (subtotal - discount_amount)
    booking_status := .confirmed
    payment_status := .unpaid
    num_seats := n }

/-- The session mutations of the success path of `create_booking`
(`bookings.py` lines 184–199): insert the booking row, flip the requested
seats to `booked` with their back-reference set, decrement the trip's
`available_seats`, increment the promo's `used_count` when one was applied. -/
def applyCreate (db : DB) (tid : Nat) (seat_ids : List Nat)
    (promoOpt : Option PromoCode) (bk : Booking) : DB :=
  { db with
    bookings := db.bookings ++ [bk]
    seats := db.seats.map fun s =>
      if s.id ∈ seat_ids ∧ s.trip_id = tid then
        { s with status := .booked, booking_id := some bk.id }
      else s
    trips := db.trips.map fun t =>
      if t.id = tid then
        { t with available_seats := t.available_seats - seat_ids.length }
      else t
    promos := match promoOpt with
      | some p => db.promos.map fun q =>
          if q.id = p.id then { q with used_count := q.used_count + 1 } else q
      | none => db.promos
    next_booking_id := db.next_booking_id + 1 }

/-- `create_booking` (`bookings.py`). The HTTP glue (authentication, field
presence, email/phone/name format) is excluded per the spec's scope; the
seat-selection validation, all trip/seat/capacity/promo checks and the
mutations are kept in the source's order. -/
def create_booking (db : DB) (now : Int) (uid tid : Nat)
    (seat_ids : List Nat) (promo_code_str : Option String) :
    DB × Except ApiError Booking :=
  if seat_ids.isEmpty then (db, .error .invalidSeatSelection)
  else if ¬ seat_ids.Nodup then (db, .error .invalidSeatSelection)
  else
    match findTrip db tid with
    | none => (db, .error .tripNotFound)
    | some trip =>
      if trip.status ≠ .scheduled then (db, .error .tripNotBookable)
      else if trip.departure_time < now then (db, .error .tripDeparted)
      else
        if (requestedSeats db tid seat_ids).length ≠ seat_ids.length then
          (db, .error .seatsNotFound)
        else if (requestedSeats db tid seat_ids).any (fun s => s.status ≠ .available) then
          (db, .error .seatUnavailable)
        else if trip.available_seats < (seat_ids.length : Int) then
          (db, .error .insufficientCapacity)
        else
          match resolvePromo db now uid (createSubtotal db tid seat_ids trip) promo_code_str with
          | .error e => (db, .error e)
          | .ok promoOpt =>
            (applyCreate db tid seat_ids promoOpt
              (mkBooking db uid tid promoOpt (createSubtotal db tid seat_ids trip)
                (promoDiscount promoOpt (createSubtotal db tid seat_ids trip)) seat_ids.length),
             .ok (mkBooking db uid tid promoOpt (createSubtotal db tid seat_ids trip)
                (promoDiscount promoOpt (createSubtotal db tid seat_ids trip)) seat_ids.length))

/-- The session mutations of the success path of `cancel_booking`
(`bookings.py` lines 363–382): mark the booking cancelled, release its
seats, re-increment the trip counter, force `refunded` when the booking was
`paid`, decrement the promo's `used_count` (floored at zero). -/
def applyCancel (db : DB) (bid : Nat) (b : Booking) : DB :=
  { db with
    bookings := db.bookings.map fun x =>
      if x.id = bid then
        { x with booking_status := .cancelled
                 payment_status := if x.payment_status = .paid then .refunded else x.payment_status }
      else x
    seats := db.seats.map fun s =>
      if s.booking_id = some bid then { s with status := .available, booking_id := none } else s
    trips := db.trips.map fun t =>
      if t.id = b.trip_id then
        { t with available_seats := t.available_seats + b.num_seats }
      else t
    promos := match b.promo_code_id with
      | some pid => db.promos.map fun p =>
          if p.id = pid then { p with used_count := max 0 (p.used_count - 1) } else p
      | none => db.promos }

/-- `cancel_booking` (`bookings.py`). The trip lookup models the
`booking.trip` relationship access; a missing trip row would raise in the
source and roll the session back, leaving the store unchanged. -/
def cancel_booking (db : DB) (now : Int) (uid bid : Nat) :
    DB × Except ApiError Unit :=
  match findBooking db bid with
  | none => (db, .error .bookingNotFound)
  | some b =>
    if b.user_id ≠ uid then (db, .error .unauthorized)
    else if b.booking_status = .cancelled then (db, .error .alreadyCancelled)
    else if b.booking_status = .completed then (db, .error .alreadyCompleted)
    else
      match findTrip db b.trip_id with
      | none => (db, .error .tripNotFound)
      | some trip =>
        if trip.departure_time < now then (db, .error .cannotCancelDeparted)
        else (applyCancel db bid b, .ok ())

/-- `update_payment_status` (`bookings.py`): the user-facing payment-status
update. Only `paid` and `failed` pass the input validation; a cancelled
booking is rejected. -/
def update_payment_status (db : DB) (uid bid : Nat) (ps : PaymentStatus) :
    DB × Except ApiError Unit :=
  if ps ≠ .paid ∧ ps ≠ .failed then (db, .error .invalidStatus)
  else
    match findBooking db bid with
    | none => (db, .error .bookingNotFound)
    | some b =>
      if b.user_id ≠ uid then (db, .error .unauthorized)
      else if b.booking_status = .cancelled then (db, .error .bookingCancelledError)
      else
        ({ db with bookings := db.bookings.map fun x =>
            if x.id = bid then { x with payment_status := ps } else x }, .ok ())

/-- Seats currently back-referencing a booking: the `booking.seats`
relationship (`Seat.booking_id == booking.id`). -/
def bookingSeats (db : DB) (bid : Nat) : List Seat :=
  db.seats.filter fun s => decide (s.booking_id = some bid)

/-- `update_booking_status` (`app/routes/admin_bookings.py`): the admin
status update, with the cancel transition (free seats, bump counter,
refund), the re-activation transition out of `cancelled` (availability
re-check over `booking.seats`, re-book, decrement counter), and the plain
status write. The trip lookups model the `booking.trip` relationship
access. -/
def Admin.update_booking_status (db : DB) (bid : Nat) (new_status : BookingStatus) :
    DB × Except ApiError Unit :=
  match findBooking db bid with
  | none => (db, .error .bookingNotFound)
  | some b =>
    let old_status := b.booking_status
    if new_status = .cancelled ∧ old_status ≠ .cancelled then
      match findTrip db b.trip_id with
      | none => (db, .error .tripNotFound)
      | some _ =>
        ({ db with
            seats := db.seats.map fun s =>
              if s.booking_id = some bid then { s with status := .available, booking_id := none }
              else s
            trips := db.trips.map fun t =>
              if t.id = b.trip_id then
                { t with available_seats := t.available_seats + b.num_seats }
              else t
            bookings := db.bookings.map fun x =>
              if x.id = bid then
                { x with booking_status := new_status
                         payment_status := if x.payment_status = .paid then .refunded else x.payment_status }
              else x }, .ok ())
    else if old_status = .cancelled ∧ new_status ≠ .cancelled then
      let seat_ids := (bookingSeats db bid).map (·.id)
      let avail := (db.seats.filter fun s =>
        decide (s.id ∈ seat_ids) && decide (s.status = .available)).length
      if avail ≠ seat_ids.length then (db, .error .seatsNoLongerAvailable)
      else
        match findTrip db b.trip_id with
        | none => (db, .error .tripNotFound)
        | some _ =>
          ({ db with
              seats := db.seats.map fun s =>
                if s.id ∈ seat_ids then { s with status := .booked, booking_id := some bid }
                else s
              trips := db.trips.map fun t =>
                if t.id = b.trip_id then
                  { t with available_seats := t.available_seats - b.num_seats }
                else t
              bookings := db.bookings.map fun x =>
                if x.id = bid then { x with booking_status := new_status } else x }, .ok ())
    else
      ({ db with bookings := db.bookings.map fun x =>
          if x.id = bid then { x with booking_status := new_status } else x }, .ok ())

/-- `update_payment_status` (`app/routes/admin_bookings.py`): the admin
payment-status update. It writes the new status unconditionally — there is
no cancelled-booking check on this path. -/
def Admin.update_payment_status (db : DB) (bid : Nat) (ps : PaymentStatus) :
    DB × Except ApiError Unit :=
  match findBooking db bid with
  | none => (db, .error .bookingNotFound)
  | some _ =>
    ({ db with bookings := db.bookings.map fun x =>
        if x.id = bid then { x with payment_status := ps } else x }, .ok ())

/-- The status-update portion of `update_seat` (`admin_trips.py` lines
508–522): refuse the change while the seat is `booked` with a non-null
back-reference, otherwise write the new status. -/
def Admin.update_seat (db : DB) (tid sid : Nat) (new_status : SeatStatus) :
    DB × Except ApiError Unit :=
  match findSeat db sid tid with
  | none => (db, .error .seatNotFound)
  | some seat =>
    if seat.status = .booked ∧ seat.booking_id ≠ none then (db, .error .seatInUse)
    else
      ({ db with seats := db.seats.map fun s =>
          if s.id = sid ∧ s.trip_id = tid then { s with status := new_status } else s }, .ok ())

/-- `initiate_payment` (`app/routes/payments.py`): create a payment attempt
for a booking; already-paid and cancelled bookings are rejected here. -/
def initiate_payment (db : DB) (uid bid : Nat) : DB × Except ApiError Nat :=
  match findBooking db bid with
  | none => (db, .error .bookingNotFound)
  | some b =>
    if b.user_id ≠ uid then (db, .error .unauthorized)
    else if b.payment_status = .paid then (db, .error .alreadyPaid)
    else if b.booking_status = .cancelled then (db, .error .bookingCancelledError)
    else
      let pid := db.next_payment_id
      ({ db with
          payments := db.payments ++ [{ id := pid, booking_id := bid, user_id := uid, status := .initiated }]
          next_payment_id := pid + 1 }, .ok pid)

/-- `process_payment` (`app/routes/payments.py`): apply the mocked gateway
outcome. On success the payment attempt becomes `success` and the booking's
payment status becomes `paid` — the booking's own status is not consulted.
The booking lookup models the `payment.booking` relationship access (the
intermediate `processing` write of the source is subsumed by the final
write). -/
def process_payment (db : DB) (uid pid : Nat) (gateway_success : Bool) :
    DB × Except ApiError Unit :=
  match db.payments.find? (fun p => p.id == pid) with
  | none => (db, .error .paymentNotFound)
  | some payment =>
    if payment.user_id ≠ uid then (db, .error .unauthorized)
    else if payment.status = .success ∨ payment.status = .failed ∨ payment.status = .cancelled then
      (db, .error .paymentAlreadyProcessed)
    else
      match findBooking db payment.booking_id with
      | none => (db, .error .bookingNotFound)
      | some _ =>
        if gateway_success then
          ({ db with
              payments := db.payments.map fun p =>
                if p.id = pid then { p with status := .success } else p
              bookings := db.bookings.map fun b =>
                if b.id = payment.booking_id then { b with payment_status := .paid } else b }, .ok ())
        else
          ({ db with payments := db.payments.map fun p =>
              if p.id = pid then { p with status := .failed } else p }, .ok ())

/-- Number of seats of the trip whose state is `booked`. -/
def bookedSeatCount (db : DB) (tid : Nat) : Nat :=
  (db.seats.filter fun s => decide (s.trip_id = tid) && decide (s.status = .booked)).length

/-- §8 invariant: for every trip at rest, `available_seats` equals
`total_seats` minus the number of its seats in state `booked`, and
`0 ≤ available_seats ≤ total_seats`. -/
def tripCounterInvariant (db : DB) : Prop :=
  ∀ t ∈ db.trips,
    t.available_seats = t.total_seats - bookedSeatCount db t.id ∧
    0 ≤ t.available_seats ∧ t.available_seats ≤ t.total_seats

instance : DecidablePred tripCounterInvariant := fun db => by
  unfold tripCounterInvariant; infer_instance

/-- §8 invariant: a seat's booking back-reference is non-null iff its state
is `booked`, and any referenced booking exists and is not cancelled. -/
def seatRefInvariant (db : DB) : Prop :=
  ∀ s ∈ db.seats,
    (s.booking_id ≠ none ↔ s.status = .booked) ∧
    (∀ bid, s.booking_id = some bid →
      ∃ b ∈ db.bookings, b.id = bid ∧ b.booking_status ≠ .cancelled)

instance : DecidablePred seatRefInvariant := fun db => by
  unfold seatRefInvariant; infer_instance

/-! ## Operation sequences (for the promo-counter conservation claim) -/

/-- `n` consecutive steps of a relation between stores. -/
def StepN (R : DB → DB → Prop) : Nat → DB → DB → Prop
  | 0, a, b => b = a
  | n + 1, a, b => ∃ mid, R a mid ∧ StepN R n mid b

/-- One successful booking create that applies the promo code `c`. -/
def CreateUse (c : String) (a b : DB) : Prop :=
  ∃ now uid tid sids bk,
    create_booking a now uid tid sids (some c) = (b, .ok bk)

/-- One successful cancellation of a booking referencing promo id `pid`
(in particular, of any booking created with that promo). -/
def CancelOf (pid : Nat) (a b : DB) : Prop :=
  ∃ now uid bid bb,
    findBooking a bid = some bb ∧ bb.promo_code_id = some pid ∧
    cancel_booking a now uid bid = (b, .ok ())

/-! ## Spec-side definitions (for refinement comparison) -/

/-- Round to 2 decimal places with half-up ties — the rounding rule the
spec's `calculateDiscount` sentence names. Stated for comparison with the
source's `round2`. -/
def round2HalfUp (q : ℚ) : ℚ := ((⌊q * 100 + 1/2⌋ : ℤ) : ℚ) / 100

/-- The spec's `calculateDiscount(promo, amount)` sentence, with the
rounding rule amended to half-even: `0` if `min_purchase_amount` is set and
`amount` is below it; otherwise `amount × (discount_percentage/100)`, capped
at `max_discount_amount` if set, rounded to 2 decimal places. -/
def calculateDiscountSpec (p : PromoCode) (amount : ℚ) : ℚ :=
  if p.min_purchase_amount.isSome ∧ amount < p.min_purchase_amount.getD 0 then 0
  else
    round2 (if p.max_discount_amount.isSome then
        min (amount * (p.discount_percentage / 100)) (p.max_discount_amount.getD 0)
      else amount * (p.discount_percentage / 100))

/-! ## Concrete stores used by the closed theorems -/

/-- A two-seat scheduled trip with one seat booked by booking 1. -/
def reactDB : DB :=
  { trips := [{ id := 1, departure_time := 100, base_fare := 50, total_seats := 2,
                available_seats := 1, status := .scheduled }]
    seats := [{ id := 1, trip_id := 1, status := .booked, price_multiplier := 1, booking_id := some 1 },
              { id := 2, trip_id := 1, status := .available, price_multiplier := 1, booking_id := none }]
    bookings := [{ id := 1, user_id := 1, trip_id := 1, promo_code_id := none,
                   subtotal := 50, discount_amount := 0, total_amount := 50,
                   booking_status := .confirmed, payment_status := .unpaid, num_seats := 1 }]
    promos := [], payments := [], next_booking_id := 2, next_payment_id := 1 }

/-- `reactDB` after user 1 cancels booking 1. -/
def reactDB1 : DB := (cancel_booking reactDB 10 1 1).1

/-- `reactDB1` after the admin re-activates booking 1 to `confirmed`. -/
def reactDB2 : DB := (Admin.update_booking_status reactDB1 1 .confirmed).1

/-- `reactDB1` after user 2 books seat 1 (booking 2). -/
def reactDB3 : DB := (create_booking reactDB1 10 2 1 [1] none).1

/-- `reactDB3` after the admin re-activates booking 1 to `confirmed`. -/
def reactDB4 : DB := (Admin.update_booking_status reactDB3 1 .confirmed).1

/-- A one-seat trip whose seat price `base_fare × price_multiplier`
has four decimal places: `0.01 × 0.25 = 0.0025`. -/
def c2db : DB :=
  { trips := [{ id := 1, departure_time := 100, base_fare := 1/100, total_seats := 1,
                available_seats := 1, status := .scheduled }]
    seats := [{ id := 1, trip_id := 1, status := .available, price_multiplier := 1/4, booking_id := none }]
    bookings := [], promos := [], payments := [], next_booking_id := 1, next_payment_id := 1 }

/-- The trip of the witness store `c2wdb`. -/
def c2wtrip : Trip :=
  { id := 1, departure_time := 100, base_fare := 50, total_seats := 2,
    available_seats := 2, status := .scheduled }

/-- A witness store: one scheduled trip with one available seat. -/
def c2wdb : DB :=
  { trips := [c2wtrip]
    seats := [{ id := 1, trip_id := 1, status := .available, price_multiplier := 1, booking_id := none }]
    bookings := [], promos := [], payments := [], next_booking_id := 1, next_payment_id := 1 }

/-- The booking row created by the witness booking-create on `c2wdb`. -/
def c2wbk : Booking :=
  mkBooking c2wdb 1 1 none (createSubtotal c2wdb 1 [1] c2wtrip)
    (promoDiscount none (createSubtotal c2wdb 1 [1] c2wtrip)) 1

/-- The trip of the round-trip witness store `c4db` (Scenario A: 10 seats
capacity, 10 available). -/
def c4trip : Trip :=
  { id := 1, departure_time := 100, base_fare := 50, total_seats := 10,
    available_seats := 10, status := .scheduled }

/-- Round-trip witness store: one scheduled trip, three available seats. -/
def c4db : DB :=
  { trips := [c4trip]
    seats := [{ id := 1, trip_id := 1, status := .available, price_multiplier := 1, booking_id := none },
              { id := 2, trip_id := 1, status := .available, price_multiplier := 1, booking_id := none },
              { id := 3, trip_id := 1, status := .available, price_multiplier := 1, booking_id := none }]
    bookings := [], promos := [], payments := [], next_booking_id := 1, next_payment_id := 1 }

/-- The booking created by the witness three-seat create on `c4db`. -/
def c4bk : Booking :=
  mkBooking c4db 1 1 none (createSubtotal c4db 1 [1, 2, 3] c4trip)
    (promoDiscount none (createSubtotal c4db 1 [1, 2, 3] c4trip)) 3

/-- `c4db` after the witness create. -/
def c4db1 : DB := applyCreate c4db 1 [1, 2, 3] none c4bk

/-- `c4db1` after cancelling the created booking. -/
def c4db2 : DB := (cancel_booking c4db1 20 1 c4bk.id).1

/-- An empty store (no trips), on which any booking create fails. -/
def c3db : DB :=
  { trips := [], seats := [], bookings := [], promos := [], payments := [],
    next_booking_id := 1, next_payment_id := 1 }

/-- A store with one cancelled, unpaid booking and one initiated payment
attempt for it. -/
def c6db : DB :=
  { trips := [{ id := 1, departure_time := 100, base_fare := 50, total_seats := 2,
                available_seats := 2, status := .scheduled }]
    seats := []
    bookings := [{ id := 1, user_id := 1, trip_id := 1, promo_code_id := none,
                   subtotal := 50, discount_amount := 0, total_amount := 50,
                   booking_status := .cancelled, payment_status := .unpaid, num_seats := 1 }]
    promos := []
    payments := [{ id := 1, booking_id := 1, user_id := 1, status := .initiated }]
    next_booking_id := 2, next_payment_id := 2 }

/-- A 25%-discount promo with no cap and no minimum. -/
def c7promo : PromoCode :=
  { id := 1, code := "P25", discount_percentage := 25, max_discount_amount := none,
    min_purchase_amount := none, usage_limit := none, used_count := 0,
    usage_per_user := none, valid_from := 0, valid_until := 100, is_active := true }

/-- The spec's Scenario B promo: 10% off, minimum purchase 50, cap 20. -/
def c7save10 : PromoCode :=
  { id := 2, code := "SAVE10", discount_percentage := 10, max_discount_amount := some 20,
    min_purchase_amount := some 50, usage_limit := none, used_count := 0,
    usage_per_user := none, valid_from := 0, valid_until := 100, is_active := true }

/-- A store with a single available, unreferenced seat. -/
def c8db : DB :=
  { trips := [{ id := 1, departure_time := 100, base_fare := 50, total_seats := 1,
                available_seats := 1, status := .scheduled }]
    seats := [{ id := 1, trip_id := 1, status := .available, price_multiplier := 1, booking_id := none }]
    bookings := [], promos := [], payments := [], next_booking_id := 1, next_payment_id := 1 }

/-- The promo of the conservation witness: 5-use limit, no per-user limit. -/
def c9promo : PromoCode :=
  { id := 5, code := "SAVE", discount_percentage := 10, max_discount_amount := none,
    min_purchase_amount := none, usage_limit := some 5, used_count := 0,
    usage_per_user := none, valid_from := 0, valid_until := 1000, is_active := true }

/-- The trip of the conservation witness store. -/
def c9trip : Trip :=
  { id := 1, departure_time := 100, base_fare := 50, total_seats := 4,
    available_seats := 4, status := .scheduled }

/-- Conservation witness store: one trip, two available seats, the `SAVE`
promo. -/
def c9db : DB :=
  { trips := [c9trip]
    seats := [{ id := 1, trip_id := 1, status := .available, price_multiplier := 1, booking_id := none },
              { id := 2, trip_id := 1, status := .available, price_multiplier := 1, booking_id := none }]
    bookings := [], promos := [c9promo], payments := [], next_booking_id := 1, next_payment_id := 1 }

/-- Subtotal of the first witness create (seat 1). -/
def c9sub1 : ℚ := createSubtotal c9db 1 [1] c9trip

/-- The first witness booking (seat 1, promo `SAVE`). -/
def c9bkA : Booking :=
  mkBooking c9db 1 1 (some c9promo) c9sub1 (promoDiscount (some c9promo) c9sub1) 1

/-- The store after the first witness create. -/
def c9dbA : DB := applyCreate c9db 1 [1] (some c9promo) c9bkA

/-- The promo row after the first witness create. -/
def c9promoA : PromoCode := { c9promo with used_count := c9promo.used_count + 1 }

/-- The trip row after the first witness create. -/
def c9tripA : Trip :=
  { c9trip with available_seats := c9trip.available_seats - ([1] : List Nat).length }

/-- Subtotal of the second witness create (seat 2). -/
def c9sub2 : ℚ := createSubtotal c9dbA 1 [2] c9tripA

/-- The second witness booking (seat 2, promo `SAVE`, another user). -/
def c9bkB : Booking :=
  mkBooking c9dbA 2 1 (some c9promoA) c9sub2 (promoDiscount (some c9promoA) c9sub2) 1

/-- The store after the second witness create. -/
def c9dbB : DB := applyCreate c9dbA 1 [2] (some c9promoA) c9bkB

/-- The store after cancelling the first witness booking. -/
def c9dbC : DB := (cancel_booking c9dbB 20 1 1).1

/-- The trip of the per-user-eligibility witness store. -/
def c10trip : Trip :=
  { id := 1, departure_time := 100, base_fare := 50, total_seats := 2,
    available_seats := 2, status := .scheduled }

/-- The promo of the per-user-eligibility witness: one use per user. -/
def c10promo : PromoCode :=
  { id := 5, code := "ONCE", discount_percentage := 10, max_discount_amount := none,
    min_purchase_amount := none, usage_limit := none, used_count := 0,
    usage_per_user := some 1, valid_from := 0, valid_until := 1000, is_active := true }

/-- Per-user-eligibility witness store: user 1 already has one *cancelled*
booking referencing promo 5. -/
def c10db : DB :=
  { trips := [c10trip]
    seats := [{ id := 1, trip_id := 1, status := .available, price_multiplier := 1, booking_id := none }]
    bookings := [{ id := 1, user_id := 1, trip_id := 1, promo_code_id := some 5,
                   subtotal := 50, discount_amount := 0, total_amount := 50,
                   booking_status := .cancelled, payment_status := .unpaid, num_seats := 1 }]
    promos := [c10promo], payments := [], next_booking_id := 2, next_payment_id := 1 }

/-! ## Generic list lemmas -/

/-- `find?` commutes with mapping a function that does not change the
predicate's verdict. -/
theorem find?_map_comm {α : Type} (l : List α) (p : α → Bool) (f : α → α)
    (hf : ∀ a, p (f a) = p a) :
    (l.map f).find? p = (l.find? p).map f := by
  induction l with
  | nil => rfl
  | cons a t ih =>
    by_cases h : p a = true
    · simp [List.find?_cons, hf, h]
    · simp only [Bool.not_eq_true] at h
      simp [List.find?_cons, hf, h, ih]

/-- A booking found by id carries that id. -/
theorem findBooking_id {db : DB} {bid : Nat} {b : Booking}
    (h : findBooking db bid = some b) : b.id = bid := by
  have := List.find?_some h
  simpa using this

/-- Mapping an id-preserving update over the bookings commutes with the
id lookup. -/
theorem findBookingList_map (l : List Booking) (f : Booking → Booking)
    (hf : ∀ x, (f x).id = x.id) (i : Nat) :
    (l.map f).find? (fun b => b.id == i)
      = (l.find? fun b => b.id == i).map f :=
  find?_map_comm l _ f (fun a => by rw [hf])

/-- Mapping an id-preserving update over the trips commutes with the id
lookup. -/
theorem findTripList_map (l : List Trip) (f : Trip → Trip)
    (hf : ∀ x, (f x).id = x.id) (i : Nat) :
    (l.map f).find? (fun t => t.id == i)
      = (l.find? fun t => t.id == i).map f :=
  find?_map_comm l _ f (fun a => by rw [hf])

/-- Mapping a code-preserving update over the promos commutes with the code
lookup. -/
theorem findPromoList_map (l : List PromoCode) (f : PromoCode → PromoCode)
    (hf : ∀ x, (f x).code = x.code) (c : String) :
    (l.map f).find? (fun p => p.code == c)
      = (l.find? fun p => p.code == c).map f :=
  find?_map_comm l _ f (fun a => by rw [hf])

/-- A trip found by id carries that id. -/
theorem findTrip_id {db : DB} {tid : Nat} {t : Trip}
    (h : findTrip db tid = some t) : t.id = tid := by
  have := List.find?_some h
  simpa using this

/-- A promo found by id carries that id. -/
theorem findPromo_id {db : DB} {pid : Nat} {p : PromoCode}
    (h : findPromo db pid = some p) : p.id = pid := by
  have := List.find?_some h
  simpa using this

/-- Mapping an id-preserving update over the promos commutes with the id
lookup. -/
theorem findPromoIdList_map (l : List PromoCode) (f : PromoCode → PromoCode)
    (hf : ∀ x, (f x).id = x.id) (i : Nat) :
    (l.map f).find? (fun p => p.id == i)
      = (l.find? fun p => p.id == i).map f :=
  find?_map_comm l _ f (fun a => by rw [hf])

/-! ## Evaluation lemmas for `round2` -/

/-- `round2` at a value whose scaled fractional part is below one half. -/
theorem round2_down (q : ℚ) (z : ℤ) (h1 : (z : ℚ) ≤ q * 100) (h2 : q * 100 - z < 1/2) :
    round2 q = (z : ℚ) / 100 := by
  have hf : ⌊q * 100⌋ = z := by
    rw [Int.floor_eq_iff]
    exact ⟨h1, by linarith⟩
  unfold round2 roundHalfEven
  rw [hf, if_pos (by linarith)]

/-- `round2` at a value whose scaled fractional part is above one half. -/
theorem round2_up (q : ℚ) (z : ℤ) (h1 : q * 100 < (z : ℚ) + 1) (h2 : (1:ℚ)/2 < q * 100 - z) :
    round2 q = ((z : ℚ) + 1) / 100 := by
  have hf : ⌊q * 100⌋ = z := by
    rw [Int.floor_eq_iff]
    exact ⟨by linarith, by linarith⟩
  unfold round2 roundHalfEven
  rw [hf, if_neg (by linarith), if_pos (by linarith)]
  push_cast
  ring_nf

/-- `round2` at an exact tie with an even scaled integer part: ties go down
(to even). -/
theorem round2_tie_even (q : ℚ) (z : ℤ) (h1 : q * 100 - z = 1/2) (hz : z % 2 = 0) :
    round2 q = (z : ℚ) / 100 := by
  have hf : ⌊q * 100⌋ = z := by
    rw [Int.floor_eq_iff]
    exact ⟨by linarith, by linarith⟩
  unfold round2 roundHalfEven
  rw [hf, if_neg (by linarith), if_neg (by linarith), if_pos hz]

/-- `round2` leaves a value with at most two decimal places unchanged. -/
theorem round2_eq_self {q : ℚ} {z : ℤ} (h : q * 100 = z) : round2 q = q := by
  have hq : q = (z : ℚ) / 100 := by
    field_simp
    linarith [h]
  rw [round2_down q z (le_of_eq h.symm) (by rw [h]; norm_num), hq]

/-- `round2` always produces a value with at most two decimal places. -/
theorem round2_twoDec (q : ℚ) : ∃ z : ℤ, round2 q * 100 = z := by
  refine ⟨roundHalfEven (q * 100), ?_⟩
  unfold round2
  field_simp

/-- `calculate_discount` always produces a value with at most two decimal
places. -/
theorem calculate_discount_twoDec (p : PromoCode) (amount : ℚ) :
    ∃ z : ℤ, p.calculate_discount amount * 100 = z := by
  unfold PromoCode.calculate_discount
  split
  · exact ⟨0, by norm_num⟩
  · exact round2_twoDec _

/-- The discount recorded on a booking has at most two decimal places. -/
theorem promoDiscount_twoDec (promoOpt : Option PromoCode) (subtotal : ℚ) :
    ∃ z : ℤ, promoDiscount promoOpt subtotal * 100 = z := by
  cases promoOpt with
  | none => exact ⟨0, by simp [promoDiscount]⟩
  | some p => exact calculate_discount_twoDec p subtotal

/-! ## Inversion lemmas for the operations' success paths -/

/-- Everything that must have held for `create_booking` to succeed, and the
shape of the result. -/
theorem create_booking_ok_elim {db : DB} {now : Int} {uid tid : Nat}
    {seat_ids : List Nat} {promo_code_str : Option String} {db' : DB} {bk : Booking}
    (h : create_booking db now uid tid seat_ids promo_code_str = (db', .ok bk)) :
    ∃ trip promoOpt,
      seat_ids.isEmpty = false ∧
      seat_ids.Nodup ∧
      findTrip db tid = some trip ∧
      trip.status = .scheduled ∧
      ¬ trip.departure_time < now ∧
      (requestedSeats db tid seat_ids).length = seat_ids.length ∧
      ((requestedSeats db tid seat_ids).any fun s => decide (s.status ≠ .available)) = false ∧
      ¬ trip.available_seats < (seat_ids.length : Int) ∧
      resolvePromo db now uid (createSubtotal db tid seat_ids trip) promo_code_str = .ok promoOpt ∧
      bk = mkBooking db uid tid promoOpt (createSubtotal db tid seat_ids trip)
        (promoDiscount promoOpt (createSubtotal db tid seat_ids trip)) seat_ids.length ∧
      db' = applyCreate db tid seat_ids promoOpt bk := by
  unfold create_booking at h
  split at h
  · simp at h
  split at h
  · simp at h
  split at h
  · simp at h
  next trip htrip =>
  split at h
  · simp at h
  split at h
  · simp at h
  split at h
  · simp at h
  split at h
  · simp at h
  split at h
  · simp at h
  split at h
  · simp at h
  next promoOpt hpromo =>
    rw [Prod.mk.injEq] at h
    obtain ⟨hdb, hbk⟩ := h
    rw [Except.ok.injEq] at hbk
    subst hbk
    subst hdb
    refine ⟨trip, promoOpt, ?_, ?_, htrip, ?_, ?_, ?_, ?_, ?_, hpromo, rfl, rfl⟩ <;> simp_all

/-- `create_booking` either rejects the request leaving the store untouched,
or succeeds. -/
theorem create_booking_shape (db : DB) (now : Int) (uid tid : Nat)
    (seat_ids : List Nat) (promo_code_str : Option String) :
    (create_booking db now uid tid seat_ids promo_code_str).1 = db ∨
    ∃ bk, (create_booking db now uid tid seat_ids promo_code_str).2 = .ok bk := by
  unfold create_booking
  repeat' split
  all_goals first
    | (left; rfl)
    | (right; exact ⟨_, rfl⟩)

/-- On any validation failure `create_booking` leaves the store untouched. -/
theorem create_booking_error_state {db : DB} {now : Int} {uid tid : Nat}
    {seat_ids : List Nat} {promo_code_str : Option String} {e : ApiError}
    (h : (create_booking db now uid tid seat_ids promo_code_str).2 = .error e) :
    (create_booking db now uid tid seat_ids promo_code_str).1 = db := by
  rcases create_booking_shape db now uid tid seat_ids promo_code_str with h1 | ⟨bk, h2⟩
  · exact h1
  · rw [h] at h2
    exact absurd h2 (by simp)

/-- Everything that must have held for `cancel_booking` to succeed, and the
shape of the result. -/
theorem cancel_booking_ok_elim {db : DB} {now : Int} {uid bid : Nat} {db' : DB} {u : Unit}
    (h : cancel_booking db now uid bid = (db', .ok u)) :
    ∃ b trip,
      findBooking db bid = some b ∧
      b.user_id = uid ∧
      b.booking_status ≠ .cancelled ∧
      b.booking_status ≠ .completed ∧
      findTrip db b.trip_id = some trip ∧
      ¬ trip.departure_time < now ∧
      db' = applyCancel db bid b := by
  unfold cancel_booking at h
  split at h
  · simp at h
  next b hb =>
  split at h
  · simp at h
  split at h
  · simp at h
  split at h
  · simp at h
  split at h
  · simp at h
  next trip htrip =>
  split at h
  · simp at h
  simp only [Prod.mk.injEq] at h
  refine ⟨b, trip, hb, ?_, ?_, ?_, htrip, ?_, h.1.symm⟩
  all_goals simp_all

/-- `cancel_booking` either rejects the request leaving the store
untouched, or succeeds. -/
theorem cancel_booking_shape (db : DB) (now : Int) (uid bid : Nat) :
    (cancel_booking db now uid bid).1 = db ∨
    (cancel_booking db now uid bid).2 = .ok () := by
  unfold cancel_booking
  repeat' split
  all_goals first | (left; rfl) | (right; rfl)

/-- The create-success mutations preserve the seat back-reference
invariant, provided the inserted booking is not cancelled. -/
theorem seatRefInvariant_applyCreate (db : DB) (tid : Nat) (sids : List Nat)
    (po : Option PromoCode) (bk : Booking)
    (hinv : seatRefInvariant db) (hbk : bk.booking_status ≠ .cancelled) :
    seatRefInvariant (applyCreate db tid sids po bk) := by
  intro s hs
  unfold applyCreate at hs
  simp only [List.mem_map] at hs
  obtain ⟨s0, hs0, rfl⟩ := hs
  by_cases hcond : s0.id ∈ sids ∧ s0.trip_id = tid
  · rw [if_pos hcond]
    refine ⟨by simp, ?_⟩
    intro bid hbid
    simp only [Option.some.injEq] at hbid
    refine ⟨bk, ?_, hbid, hbk⟩
    unfold applyCreate
    simp
  · rw [if_neg hcond]
    rcases hinv s0 hs0 with ⟨hiff, href⟩
    refine ⟨hiff, ?_⟩
    intro bid hbid
    obtain ⟨b, hbmem, hbid', hbst⟩ := href bid hbid
    refine ⟨b, ?_, hbid', hbst⟩
    unfold applyCreate
    simp only [List.mem_append]
    exact Or.inl hbmem

/-- The cancel mutations preserve the seat back-reference invariant. -/
theorem seatRefInvariant_applyCancel (db : DB) (bid : Nat) (b : Booking)
    (hinv : seatRefInvariant db) :
    seatRefInvariant (applyCancel db bid b) := by
  intro s hs
  unfold applyCancel at hs
  simp only [List.mem_map] at hs
  obtain ⟨s0, hs0, rfl⟩ := hs
  by_cases hc : s0.booking_id = some bid
  · rw [if_pos hc]
    exact ⟨by simp, by intro bid' hbid'; simp at hbid'⟩
  · rw [if_neg hc]
    rcases hinv s0 hs0 with ⟨hiff, href⟩
    refine ⟨hiff, ?_⟩
    intro bid' hbid'
    have hne : bid' ≠ bid := by
      rintro rfl
      exact hc hbid'
    obtain ⟨bb, hmem, hid, hst⟩ := href bid' hbid'
    refine ⟨bb, ?_, hid, hst⟩
    unfold applyCancel
    simp only [List.mem_map]
    refine ⟨bb, hmem, ?_⟩
    rw [if_neg]
    rw [hid]
    exact hne

/-! ## Claim theorems -/

/-- **C1.** The claim says the availability invariant
`available_seats = total_seats − #booked` with `0 ≤ available ≤ total` is
preserved by every seat/counter-mutating operation, including the admin
re-activation from `cancelled`. It is not: cancelling clears the seats'
back-references, so on re-activation `booking.seats` is empty — no seat is
re-booked, yet the counter is still decremented by `num_seats`. Concretely:
the invariant holds before and after the cancel, the re-activation
succeeds, and the invariant is false afterwards (`available_seats = 1`
while `total_seats − #booked = 2`). -/
theorem C1_reactivation_breaks_counter_invariant :
    tripCounterInvariant reactDB ∧
    (cancel_booking reactDB 10 1 1).2 = .ok () ∧
    tripCounterInvariant reactDB1 ∧
    (Admin.update_booking_status reactDB1 1 .confirmed).2 = .ok () ∧
    ¬ tripCounterInvariant reactDB2 ∧
    (findTrip reactDB2 1).map Trip.available_seats = some 1 ∧
    bookedSeatCount reactDB2 1 = 0 := by decide

/-- **C5.** The claim says re-activation must re-verify that the booking's
originally-held seats are still available, fail with
`SeatsNoLongerAvailable` if any is not, and otherwise re-reserve them. In
the code the check and the re-reservation run over `booking.seats`, which
is empty after a cancel (the back-references were cleared), so: after
booking 1's seat was re-booked by user 2 (booking 2), re-activating
booking 1 still succeeds, re-reserves nothing (seat 1 keeps booking 2's
reference), and decrements the trip counter to 0 anyway. -/
theorem C5_reactivation_skips_reverification :
    (cancel_booking reactDB 10 1 1).2 = .ok () ∧
    (create_booking reactDB1 10 2 1 [1] none).2.isOk = true ∧
    (findSeat reactDB3 1 1).map Seat.status = some .booked ∧
    (Admin.update_booking_status reactDB3 1 .confirmed).2 = .ok () ∧
    (findBooking reactDB4 1).map Booking.booking_status = some .confirmed ∧
    (findSeat reactDB4 1 1).map Seat.booking_id = some (some 2) ∧
    (findTrip reactDB4 1).map Trip.available_seats = some 0 ∧
    bookedSeatCount reactDB4 1 = 1 := by decide

/-- **C2 counterexample.** The claim says `subtotal` equals the sum of
`base_fare × price_multiplier` over the requested seats. The code rounds
that sum to 2 decimal places: with `base_fare = 0.01` and
`price_multiplier = 0.25` the sum is `0.0025` but the stored subtotal is
`0`. -/
theorem C2_subtotal_is_rounded_counterexample :
    ((create_booking c2db 0 1 1 [1] none).2.map Booking.subtotal = .ok 0) ∧
    ((requestedSeats c2db 1 [1]).map fun s =>
        s.calculate_price { id := 1, departure_time := 100, base_fare := 1/100,
                            total_seats := 1, available_seats := 1, status := .scheduled }).sum
      = 1/400 ∧
    (0 : ℚ) ≠ 1/400 := by
  refine ⟨?_, ?_, by norm_num⟩
  · have h : (create_booking c2db 0 1 1 [1] none).2.map Booking.subtotal
        = .ok (round2 ((1:ℚ)/100 * (1/4) + 0)) := rfl
    rw [h, show ((1:ℚ)/100 * (1/4) + 0) = 1/400 by norm_num,
      round2_down (1/400) 0 (by norm_num) (by norm_num)]
    norm_num
  · show ((1:ℚ)/100 * (1/4) + 0) = 1/400
    norm_num

/-- **C3.** Every validation failure of booking-create returns a structured
error and leaves the whole store unchanged: no booking row, no seat
mutation, no counter change, no promo increment. -/
theorem C3_create_failure_leaves_state_unchanged (db : DB) (now : Int)
    (uid tid : Nat) (seat_ids : List Nat) (promo : Option String) (e : ApiError)
    (h : (create_booking db now uid tid seat_ids promo).2 = .error e) :
    (create_booking db now uid tid seat_ids promo).1 = db :=
  create_booking_error_state h

/-- Witness for C3 at a concrete input: creating a booking on a store with
no trips fails with `tripNotFound` and leaves the store unchanged. -/
theorem C3_witness :
    (create_booking c3db 0 1 1 [1] none).2 = .error .tripNotFound ∧
    (create_booking c3db 0 1 1 [1] none).1 = c3db :=
  ⟨by decide, C3_create_failure_leaves_state_unchanged c3db 0 1 1 [1] none .tripNotFound (by decide)⟩

/-- **C6 counterexample.** The claim says no operation advances a cancelled
booking's payment status to `paid`. The admin payment-status update has no
cancelled check: on a cancelled booking it succeeds and sets `paid`. -/
theorem C6_admin_pays_cancelled_counterexample :
    (findBooking c6db 1).map Booking.booking_status = some .cancelled ∧
    (Admin.update_payment_status c6db 1 .paid).2 = .ok () ∧
    (findBooking (Admin.update_payment_status c6db 1 .paid).1 1).map Booking.payment_status
      = some .paid := by decide

/-- **C7 counterexample.** The claim says the discount is rounded with
half-up ties. Python's `round` rounds half-to-even: for a 25% promo and
amount `0.5` the raw discount is `0.125`; the code yields `0.12` while the
half-up rule yields `0.13`. -/
theorem C7_rounding_counterexample :
    c7promo.calculate_discount (1/2) = 12/100 ∧
    round2HalfUp ((1/2) * (c7promo.discount_percentage / 100)) = 13/100 ∧
    (12 : ℚ)/100 ≠ 13/100 := by
  refine ⟨?_, ?_, by norm_num⟩
  · have h : c7promo.calculate_discount (1/2) = round2 ((1:ℚ)/2 * (25 / 100)) := rfl
    rw [h, show ((1:ℚ)/2 * (25/100)) = 1/8 by norm_num,
      round2_tie_even (1/8) 12 (by norm_num) (by norm_num)]
    norm_num
  · show round2HalfUp ((1:ℚ)/2 * (25 / 100)) = 13/100
    unfold round2HalfUp
    rw [show ((1:ℚ)/2 * (25/100) * 100 + 1/2) = ((13:ℤ) : ℚ) by norm_num, Int.floor_intCast]
    norm_num

/-- **C7 (amended).** `calculate_discount` follows the spec's formula —
`0` below a set minimum, otherwise the percentage discount capped at a set
maximum — with the rounding rule corrected from half-up to half-to-even.
(The hypotheses record that a set cap is positive and a set minimum is
non-negative, as the admin promo-creation validation guarantees; the source
tests these columns by Python truthiness, so a zero cap would behave as
unset.) -/
theorem C7_discount_formula (p : PromoCode) (amount : ℚ)
    (hcap : ∀ c, p.max_discount_amount = some c → 0 < c)
    (hmin : ∀ m, p.min_purchase_amount = some m → 0 ≤ m)
    (hamt : 0 ≤ amount) :
    p.calculate_discount amount = calculateDiscountSpec p amount := by
  unfold PromoCode.calculate_discount calculateDiscountSpec
  rcases hm : p.min_purchase_amount with _ | m <;>
    rcases hc : p.max_discount_amount with _ | c
  · simp [pyTruthy]
  · have hcpos := hcap c hc
    simp [pyTruthy, ne_of_gt hcpos]
  · have hm0 := hmin m hm
    by_cases h0 : m = 0
    · subst h0
      simp only [pyTruthy, ne_eq, not_true_eq_false, decide_False, Bool.false_and,
        Bool.false_eq_true, if_false, Option.isSome_some, Option.getD_some, true_and]
      rw [if_neg (not_lt.2 hamt)]
      simp [pyTruthy]
    · simp [pyTruthy, h0]
  · have hm0 := hmin m hm
    have hcpos := hcap c hc
    by_cases h0 : m = 0
    · subst h0
      simp only [pyTruthy, ne_eq, not_true_eq_false, decide_False, Bool.false_and,
        Bool.false_eq_true, if_false, Option.isSome_some, Option.getD_some, true_and]
      rw [if_neg (not_lt.2 hamt)]
      simp [pyTruthy, ne_of_gt hcpos]
    · simp [pyTruthy, h0, ne_of_gt hcpos]

/-- Witness for C7 at the spec's Scenario B promo (`SAVE10`): the amended
formula applies, and the scenario's concrete values come out as stated
(`100 → 10`, `300 → 20`, `40 → 0`). -/
theorem C7_discount_formula_witness :
    c7save10.calculate_discount 100 = calculateDiscountSpec c7save10 100 ∧
    c7save10.calculate_discount 100 = 10 ∧
    c7save10.calculate_discount 300 = 20 ∧
    c7save10.calculate_discount 40 = 0 := by
  refine ⟨C7_discount_formula c7save10 100
      (fun c hc => by simp only [c7save10] at hc; injection hc with h; rw [← h]; norm_num)
      (fun m hm => by simp only [c7save10] at hm; injection hm with h; rw [← h]; norm_num)
      (by norm_num), ?_, ?_, ?_⟩
  · have h : c7save10.calculate_discount 100 = round2 (min ((100:ℚ) * (10/100)) 20) := rfl
    rw [h, show (min ((100:ℚ) * (10/100)) 20) = 10 by norm_num]
    exact round2_eq_self (z := 1000) (by norm_num)
  · have h : c7save10.calculate_discount 300 = round2 (min ((300:ℚ) * (10/100)) 20) := rfl
    rw [h, show (min ((300:ℚ) * (10/100)) 20) = 20 by norm_num]
    exact round2_eq_self (z := 2000) (by norm_num)
  · have h : c7save10.calculate_discount 40 = 0 := by
      unfold PromoCode.calculate_discount
      rw [if_pos]
      simp only [c7save10, pyTruthy, Option.getD_some]
      norm_num
    exact h

/-- **C8 counterexample.** The claim says every seat-mutating operation —
including the admin seat-status update — preserves the back-reference
invariant. The admin update only refuses changes to seats that are `booked`
with a non-null reference; setting an `available` seat's status directly to
`booked` succeeds and leaves a booked seat with a null back-reference. -/
theorem C8_admin_update_seat_counterexample :
    seatRefInvariant c8db ∧
    (Admin.update_seat c8db 1 1 .booked).2 = .ok () ∧
    ¬ seatRefInvariant (Admin.update_seat c8db 1 1 .booked).1 := by decide

/-- **C8 (amended).** Booking create and booking cancel preserve the seat
back-reference invariant (`bookingRef ≠ null ↔ state = booked`, referenced
booking non-cancelled); the admin seat-status update refuses to change a
seat that is `booked` with a non-null reference, but does not itself
preserve the invariant (see the counterexample). -/
theorem C8_seat_invariant_amended (db : DB) (hinv : seatRefInvariant db) :
    (∀ now uid tid sids promo, seatRefInvariant (create_booking db now uid tid sids promo).1) ∧
    (∀ now uid bid, seatRefInvariant (cancel_booking db now uid bid).1) ∧
    (∀ tid sid s st, findSeat db sid tid = some s → s.status = .booked →
      s.booking_id ≠ none → Admin.update_seat db tid sid st = (db, .error .seatInUse)) := by
  refine ⟨?_, ?_, ?_⟩
  · intro now uid tid sids promo
    rcases create_booking_shape db now uid tid sids promo with h1 | ⟨bk, h2⟩
    · rw [h1]; exact hinv
    · have h' : create_booking db now uid tid sids promo
          = ((create_booking db now uid tid sids promo).1, .ok bk) := by
        rw [← h2]
      obtain ⟨trip, po, _, _, _, _, _, _, _, _, _, hb, hdb⟩ := create_booking_ok_elim h'
      rw [hdb]
      refine seatRefInvariant_applyCreate db tid sids po bk hinv ?_
      rw [hb]
      simp [mkBooking]
  · intro now uid bid
    rcases cancel_booking_shape db now uid bid with h1 | h2
    · rw [h1]; exact hinv
    · have h' : cancel_booking db now uid bid
          = ((cancel_booking db now uid bid).1, .ok ()) := by
        rw [← h2]
      obtain ⟨b, trip, _, _, _, _, _, _, hdb⟩ := cancel_booking_ok_elim h'
      rw [hdb]
      exact seatRefInvariant_applyCancel db bid b hinv
  · intro tid sid s st hfind hbooked href
    simp [Admin.update_seat, hfind, hbooked, href]

/-- Witness for C8 at a concrete store: the invariant holds on `c8db` and
is preserved through a concrete booking create. -/
theorem C8_seat_invariant_amended_witness :
    seatRefInvariant c8db ∧
    seatRefInvariant (create_booking c8db 0 1 1 [1] none).1 :=
  ⟨by decide, (C8_seat_invariant_amended c8db (by decide)).1 0 1 1 [1] none⟩

/-- **C6 (amended).** For a cancelled booking: the user payment-status
update fails with the cancelled-booking error and changes nothing, and
initiating a new payment is likewise rejected; but the admin payment-status
update succeeds and sets `paid`, and processing a gateway success on a
payment attempt that was initiated before the cancellation also sets
`paid`. Only the user-facing paths enforce the never-paid-while-cancelled
rule. -/
theorem C6_cancelled_payment_policy (db : DB) (bid : Nat) (b : Booking)
    (hb : findBooking db bid = some b)
    (hc : b.booking_status = .cancelled)
    (hnp : b.payment_status ≠ .paid) :
    update_payment_status db b.user_id bid .paid = (db, .error .bookingCancelledError) ∧
    (initiate_payment db b.user_id bid).2 = .error .bookingCancelledError ∧
    (Admin.update_payment_status db bid .paid).2 = .ok () ∧
    (findBooking (Admin.update_payment_status db bid .paid).1 bid).map Booking.payment_status
      = some .paid ∧
    (∀ pid p, db.payments.find? (fun q => q.id == pid) = some p → p.booking_id = bid →
      p.status = .initiated →
      (process_payment db p.user_id pid true).2 = .ok () ∧
      (findBooking (process_payment db p.user_id pid true).1 bid).map Booking.payment_status
        = some .paid) := by
  have hid := findBooking_id hb
  refine ⟨?_, ?_, ?_, ?_, ?_⟩
  · simp [update_payment_status, hb, hc]
  · simp [initiate_payment, hb, hc, hnp]
  · simp [Admin.update_payment_status, hb]
  · have h1 : (Admin.update_payment_status db bid .paid).1
        = { db with bookings := db.bookings.map fun x =>
              if x.id = bid then { x with payment_status := .paid } else x } := by
      unfold Admin.update_payment_status
      rw [hb]
    rw [h1]
    unfold findBooking
    rw [findBookingList_map db.bookings _ (fun x => by by_cases h : x.id = bid <;> simp [h]) bid]
    have h2 : db.bookings.find? (fun x => x.id == bid) = some b := hb
    rw [h2]
    simp [hid]
  · intro pid p hp hpb hstat
    have h1 : process_payment db p.user_id pid true
        = ({ db with
              payments := db.payments.map fun q =>
                if q.id = pid then { q with status := .success } else q
              bookings := db.bookings.map fun x =>
                if x.id = p.booking_id then { x with payment_status := .paid } else x }, .ok ()) := by
      simp [process_payment, hp, hstat, hpb, hb]
    rw [h1]
    refine ⟨rfl, ?_⟩
    unfold findBooking
    rw [hpb]
    rw [findBookingList_map db.bookings _ (fun x => by by_cases h : x.id = bid <;> simp [h]) bid]
    have h2 : db.bookings.find? (fun x => x.id == bid) = some b := hb
    rw [h2]
    simp [hid]

/-- Witness for C6 at the concrete store `c6db` (cancelled, unpaid booking 1
with an initiated payment attempt 1). -/
theorem C6_cancelled_payment_policy_witness :
    update_payment_status c6db 1 1 .paid = (c6db, .error .bookingCancelledError) ∧
    (Admin.update_payment_status c6db 1 .paid).2 = .ok () ∧
    (findBooking (Admin.update_payment_status c6db 1 .paid).1 1).map Booking.payment_status
      = some .paid ∧
    (process_payment c6db 1 1 true).2 = .ok () := by
  have h := C6_cancelled_payment_policy c6db 1
    { id := 1, user_id := 1, trip_id := 1, promo_code_id := none,
      subtotal := 50, discount_amount := 0, total_amount := 50,
      booking_status := .cancelled, payment_status := .unpaid, num_seats := 1 }
    (by decide) (by decide) (by decide)
  refine ⟨h.1, h.2.2.1, h.2.2.2.1, ?_⟩
  exact (h.2.2.2.2 1 { id := 1, booking_id := 1, user_id := 1, status := .initiated }
    (by decide) (by decide) (by decide)).1

/-- **C2 (amended).** Postconditions of a successful booking-create, with
the subtotal clause amended to include the code's rounding: the booking is
`confirmed`/`unpaid` and inserted; its subtotal is the seat-price sum
rounded to 2 decimal places (half-even); `total_amount` equals
`subtotal − discount_amount` exactly; every requested seat of the trip is
`booked` with its back-reference set to the new booking; the trip's
`available_seats` drops by the number of requested seats; and the applied
promo's `used_count` rises by exactly 1 (promos are untouched when none was
applied). -/
theorem C2_create_success_postconditions (db db' : DB) (now : Int) (uid tid : Nat)
    (seat_ids : List Nat) (promo : Option String) (bk : Booking)
    (h : create_booking db now uid tid seat_ids promo = (db', .ok bk)) :
    bk.booking_status = .confirmed ∧
    bk.payment_status = .unpaid ∧
    bk ∈ db'.bookings ∧
    (∀ trip, findTrip db tid = some trip →
      bk.subtotal = round2 ((requestedSeats db tid seat_ids).map fun s => s.calculate_price trip).sum) ∧
    bk.total_amount = bk.subtotal - bk.discount_amount ∧
    (∀ s ∈ db'.seats, s.id ∈ seat_ids ∧ s.trip_id = tid →
      s.status = .booked ∧ s.booking_id = some bk.id) ∧
    (∀ trip, findTrip db tid = some trip →
      (findTrip db' tid).map Trip.available_seats
        = some (trip.available_seats - seat_ids.length)) ∧
    (∀ pid, bk.promo_code_id = some pid →
      (findPromo db' pid).map PromoCode.used_count
        = (findPromo db pid).map fun q => q.used_count + 1) ∧
    (bk.promo_code_id = none → db'.promos = db.promos) := by
  obtain ⟨trip0, promoOpt, _, _, htrip0, _, _, _, _, _, _, hbk, hdb⟩ :=
    create_booking_ok_elim h
  refine ⟨by rw [hbk]; rfl, by rw [hbk]; rfl, ?_, ?_, ?_, ?_, ?_, ?_, ?_⟩
  · rw [hdb]
    unfold applyCreate
    simp
  · intro trip htrip
    rw [htrip0] at htrip
    injection htrip with htrip
    subst htrip
    rw [hbk]
    rfl
  · rw [hbk]
    show round2 (createSubtotal db tid seat_ids trip0 - promoDiscount promoOpt (createSubtotal db tid seat_ids trip0))
      = createSubtotal db tid seat_ids trip0 - promoDiscount promoOpt (createSubtotal db tid seat_ids trip0)
    obtain ⟨z1, hz1⟩ : ∃ z : ℤ, createSubtotal db tid seat_ids trip0 * 100 = z :=
      round2_twoDec _
    obtain ⟨z2, hz2⟩ := promoDiscount_twoDec promoOpt (createSubtotal db tid seat_ids trip0)
    refine round2_eq_self (z := z1 - z2) ?_
    push_cast
    linarith
  · intro s hs hcond
    rw [hdb] at hs
    unfold applyCreate at hs
    simp only [List.mem_map] at hs
    obtain ⟨s0, hs0, rfl⟩ := hs
    by_cases hc0 : s0.id ∈ seat_ids ∧ s0.trip_id = tid
    · rw [if_pos hc0]
      exact ⟨rfl, rfl⟩
    · rw [if_neg hc0] at hcond ⊢
      exact absurd hcond hc0
  · intro trip htrip
    rw [htrip0] at htrip
    injection htrip with htrip
    subst htrip
    have hid0 : trip0.id = tid := findTrip_id htrip0
    rw [hdb]
    unfold findTrip applyCreate
    rw [findTripList_map db.trips _
      (fun x => by by_cases hx : x.id = tid <;> simp [hx]) tid]
    have htrip0' : db.trips.find? (fun t => t.id == tid) = some trip0 := htrip0
    rw [htrip0']
    simp [hid0]
  · intro pid hpid
    rw [hbk] at hpid
    unfold mkBooking at hpid
    simp only [Option.map_eq_some'] at hpid
    obtain ⟨p, hpo, hpi⟩ := hpid
    rw [hdb]
    unfold findPromo applyCreate
    rw [hpo]
    rw [findPromoIdList_map db.promos _
      (fun x => by by_cases hx : x.id = p.id <;> simp [hx]) pid]
    cases hfp : db.promos.find? (fun q => q.id == pid) with
    | none => rfl
    | some q =>
      have hqid : q.id = pid := by
        have := List.find?_some hfp
        simpa using this
      simp [hqid, ← hpi]
  · intro hnone
    rw [hbk] at hnone
    unfold mkBooking at hnone
    simp only [Option.map_eq_none'] at hnone
    rw [hdb]
    unfold applyCreate
    rw [hnone]

/-- Witness for C2: a concrete successful create on `c2wdb` produces a
`confirmed`, `unpaid` booking whose total equals subtotal minus discount. -/
theorem C2_create_success_postconditions_witness :
    c2wbk.booking_status = .confirmed ∧
    c2wbk.payment_status = .unpaid ∧
    c2wbk.total_amount = c2wbk.subtotal - c2wbk.discount_amount := by
  have h : create_booking c2wdb 0 1 1 [1] none
      = (applyCreate c2wdb 1 [1] none c2wbk, .ok c2wbk) := rfl
  have hp := C2_create_success_postconditions c2wdb _ 0 1 1 [1] none c2wbk h
  exact ⟨hp.1, hp.2.1, hp.2.2.2.2.1⟩

/-- **C4.** Round-trip: a successful create for seat set S drops the
trip's `available_seats` from A to `A − |S|`, and the successful cancel of
that booking then restores `available_seats` to A and leaves every seat of
S `available` with a null back-reference. (The freshness hypotheses say the
store does not already use the autoincrement id `next_booking_id`, as
primary-key allocation guarantees.) -/
theorem C4_create_cancel_round_trip (db db1 db2 : DB) (now now2 : Int)
    (uid uid2 tid : Nat) (seat_ids : List Nat) (promo : Option String) (bk : Booking)
    (hfreshB : ∀ x ∈ db.bookings, x.id ≠ db.next_booking_id)
    (hfreshS : ∀ s ∈ db.seats, s.booking_id ≠ some db.next_booking_id)
    (h1 : create_booking db now uid tid seat_ids promo = (db1, .ok bk))
    (h2 : cancel_booking db1 now2 uid2 bk.id = (db2, .ok ())) :
    (∀ trip, findTrip db tid = some trip →
      (findTrip db1 tid).map Trip.available_seats
        = some (trip.available_seats - seat_ids.length)) ∧
    (findTrip db2 tid).map Trip.available_seats = (findTrip db tid).map Trip.available_seats ∧
    (∀ s ∈ db2.seats, s.id ∈ seat_ids ∧ s.trip_id = tid →
      s.status = .available ∧ s.booking_id = none) := by
  obtain ⟨trip0, promoOpt, _, _, htrip0, _, _, _, _, _, _, hbk, hdb1⟩ :=
    create_booking_ok_elim h1
  have hbkid : bk.id = db.next_booking_id := by rw [hbk]; rfl
  have hbktid : bk.trip_id = tid := by rw [hbk]; rfl
  have hbknum : bk.num_seats = seat_ids.length := by rw [hbk]; rfl
  obtain ⟨b, trip2, hfb, _, _, _, _, _, hdb2⟩ := cancel_booking_ok_elim h2
  have hbeq : b = bk := by
    rw [hdb1] at hfb
    unfold findBooking applyCreate at hfb
    rw [List.find?_append] at hfb
    have hnone : db.bookings.find? (fun x => x.id == bk.id) = none := by
      rw [List.find?_eq_none]
      intro x hx
      rw [hbkid]
      simpa using hfreshB x hx
    rw [hnone] at hfb
    simp only [Option.or, List.find?] at hfb
    simp at hfb
    exact hfb.symm
  rw [hbeq] at hdb2
  refine ⟨?_, ?_, ?_⟩
  · intro trip htrip
    rw [htrip0] at htrip
    injection htrip with htrip
    subst htrip
    have hid0 : trip0.id = tid := findTrip_id htrip0
    rw [hdb1]
    unfold findTrip applyCreate
    rw [findTripList_map db.trips _
      (fun x => by by_cases hx : x.id = tid <;> simp [hx]) tid]
    have htrip0' : db.trips.find? (fun t => t.id == tid) = some trip0 := htrip0
    rw [htrip0']
    simp [hid0]
  · have e2 : findTrip db2 tid
        = ((db.trips.map fun t =>
              if t.id = tid then { t with available_seats := t.available_seats - seat_ids.length } else t).map
            fun t => if t.id = bk.trip_id then { t with available_seats := t.available_seats + bk.num_seats } else t).find?
          (fun t => t.id == tid) := by
      rw [hdb2, hdb1]
      rfl
    rw [e2]
    rw [findTripList_map _ _ (fun x => by by_cases hx : x.id = bk.trip_id <;> simp [hx]) tid]
    rw [findTripList_map _ _ (fun x => by by_cases hx : x.id = tid <;> simp [hx]) tid]
    cases hft : db.trips.find? (fun t => t.id == tid) with
    | none =>
      have : findTrip db tid = none := hft
      rw [this]
      rfl
    | some t =>
      have htid : t.id = tid := by
        have := List.find?_some hft
        simpa using this
      have : findTrip db tid = some t := hft
      rw [this]
      simp only [Option.map_some', Option.map_map]
      rw [if_pos htid]
      simp only []
      rw [if_pos (by simpa using hbktid.symm ▸ htid)]
      simp only [Option.map_some']
      congr 1
      rw [hbknum]
      omega
  · intro s hs hcond
    rw [hdb2, hdb1] at hs
    unfold applyCancel applyCreate at hs
    simp only [List.mem_map] at hs
    obtain ⟨s1, hs1, rfl⟩ := hs
    obtain ⟨s0, hs0, rfl⟩ := hs1
    by_cases hc0 : s0.id ∈ seat_ids ∧ s0.trip_id = tid
    · rw [if_pos hc0]
      rw [if_pos (by simp)]
      exact ⟨rfl, rfl⟩
    · rw [if_neg hc0] at hcond ⊢
      rw [if_neg (by rw [hbkid]; exact hfreshS s0 hs0)] at hcond ⊢
      exact absurd hcond hc0

/-- Witness for C4 on Scenario A's numbers: booking seats 1–3 on the
10-seat trip drops `available_seats` to 7, and cancelling the booking
restores the availability counter and frees the seats. -/
theorem C4_create_cancel_round_trip_witness :
    (∀ trip, findTrip c4db 1 = some trip →
      (findTrip c4db1 1).map Trip.available_seats
        = some (trip.available_seats - ([1, 2, 3] : List Nat).length)) ∧
    (findTrip c4db2 1).map Trip.available_seats = (findTrip c4db 1).map Trip.available_seats ∧
    (∀ s ∈ c4db2.seats, s.id ∈ [1, 2, 3] ∧ s.trip_id = 1 →
      s.status = .available ∧ s.booking_id = none) := by
  have h1 : create_booking c4db 0 1 1 [1, 2, 3] none = (c4db1, .ok c4bk) := rfl
  have hs2 : (cancel_booking c4db1 20 1 c4bk.id).2 = .ok () := rfl
  have h2 : cancel_booking c4db1 20 1 c4bk.id = (c4db2, .ok ()) := by
    rw [← hs2]
    rfl
  exact C4_create_cancel_round_trip c4db c4db1 c4db2 0 20 1 1 1 [1, 2, 3] none c4bk
    (by decide) (by decide) h1 h2

/-- A valid promo with a set usage limit has `used_count` strictly below
it (the fourth check of `is_valid`). -/
theorem is_valid_none_limit {p : PromoCode} {now : Int} (h : p.is_valid now = none)
    {L : Int} (hL : p.usage_limit = some L) : p.used_count < L := by
  unfold PromoCode.is_valid at h
  split at h
  · cases h
  split at h
  · cases h
  split at h
  · cases h
  split at h
  · cases h
  next h4 =>
    rw [hL] at h4
    simpa using h4

/-- If a promo code resolves successfully, the promo applied is the
looked-up row and it passed `is_valid`. -/
theorem resolvePromo_ok_some_elim {db : DB} {now : Int} {uid : Nat} {subtotal : ℚ}
    {c : String} {p : PromoCode} {promoOpt : Option PromoCode}
    (hp : findPromoByCode db c = some p)
    (h : resolvePromo db now uid subtotal (some c) = .ok promoOpt) :
    promoOpt = some p ∧ p.is_valid now = none := by
  unfold resolvePromo at h
  simp only [hp] at h
  cases hv : p.is_valid now with
  | some r =>
    simp only [hv] at h
    cases h
  | none =>
    simp only [hv] at h
    split at h
    · cases h
    split at h
    · cases h
    · injection h with h
      exact ⟨h.symm, rfl⟩

/-- A create step using code `c` increments the code's `used_count` by one
and respects the usage limit. -/
theorem createUse_promo_step {c : String} {a b : DB} (h : CreateUse c a b)
    {p : PromoCode} (hp : findPromoByCode a c = some p) :
    findPromoByCode b c = some { p with used_count := p.used_count + 1 } ∧
    (∀ L, p.usage_limit = some L → p.used_count < L) := by
  obtain ⟨now, uid, tid, sids, bk, h⟩ := h
  obtain ⟨trip0, promoOpt, _, _, _, _, _, _, _, _, hres, _, hdb⟩ :=
    create_booking_ok_elim h
  obtain ⟨hpo, hval⟩ := resolvePromo_ok_some_elim hp hres
  subst hpo
  constructor
  · rw [hdb]
    unfold findPromoByCode applyCreate
    simp only []
    rw [findPromoList_map a.promos _
      (fun x => by by_cases hx : x.id = p.id <;> simp [hx]) c]
    have hp' : a.promos.find? (fun q => q.code == c) = some p := hp
    rw [hp']
    simp
  · intro L hL
    exact is_valid_none_limit hval hL

/-- A cancel step of a booking referencing promo id `pid` decrements that
promo's `used_count` (floored at zero). -/
theorem cancelOf_promo_step {pid : Nat} {a b : DB} (h : CancelOf pid a b)
    {c : String} {p : PromoCode} (hp : findPromoByCode a c = some p)
    (hpid : p.id = pid) :
    findPromoByCode b c = some { p with used_count := max 0 (p.used_count - 1) } := by
  obtain ⟨now, uid, bid, bb, hfb, hbpid, hcb⟩ := h
  obtain ⟨b0, trip, hfb0, _, _, _, _, _, hdb⟩ := cancel_booking_ok_elim hcb
  have hb0 : b0 = bb := by
    rw [hfb0] at hfb
    injection hfb
  subst hb0
  rw [hdb]
  unfold findPromoByCode applyCancel
  rw [hbpid]
  simp only []
  rw [findPromoList_map a.promos _
    (fun x => by by_cases hx : x.id = pid <;> simp [hx]) c]
  have hp' : a.promos.find? (fun q => q.code == c) = some p := hp
  rw [hp']
  simp [hpid]

/-- After `n` successful creates using code `c`, its `used_count` has risen
by exactly `n`, never exceeding a set usage limit. -/
theorem createUse_chain (c : String) (n : Nat) :
    ∀ (a b : DB) (p : PromoCode),
      StepN (CreateUse c) n a b → findPromoByCode a c = some p →
      ∃ p1, findPromoByCode b c = some p1 ∧
        p1.id = p.id ∧ p1.usage_limit = p.usage_limit ∧
        p1.used_count = p.used_count + (n : Int) ∧
        (∀ L, p.usage_limit = some L → n = 0 ∨ p.used_count + (n : Int) ≤ L) := by
  induction n with
  | zero =>
    intro a b p h hp
    refine ⟨p, ?_, rfl, rfl, by push_cast; ring, fun L _ => Or.inl rfl⟩
    rw [show b = a from h]
    exact hp
  | succ n ih =>
    intro a b p h hp
    obtain ⟨mid, hstep, hrest⟩ := h
    obtain ⟨hmid, hlim⟩ := createUse_promo_step hstep hp
    obtain ⟨p1, hb, hid, hul, huc, hlim2⟩ := ih mid b _ hrest hmid
    refine ⟨p1, hb, hid, hul, ?_, ?_⟩
    · rw [huc]
      show p.used_count + 1 + (n : Int) = p.used_count + ((n + 1 : ℕ) : Int)
      push_cast
      ring
    · intro L hL
      refine Or.inr ?_
      have hlt := hlim L hL
      rcases hlim2 L hL with h0 | hle
      · subst h0
        push_cast
        omega
      · have hle' : p.used_count + 1 + (n : Int) ≤ L := hle
        push_cast at hle' ⊢
        omega

/-- After `m` successful cancellations of bookings referencing the promo,
its `used_count` has dropped by exactly `m`, provided it started at least
`m` (the floor at zero is never hit). -/
theorem cancelOf_chain (c : String) (pid : Nat) (m : Nat) :
    ∀ (a b : DB) (p : PromoCode),
      StepN (CancelOf pid) m a b → findPromoByCode a c = some p → p.id = pid →
      (m : Int) ≤ p.used_count →
      ∃ p2, findPromoByCode b c = some p2 ∧
        p2.id = p.id ∧ p2.usage_limit = p.usage_limit ∧
        p2.used_count = p.used_count - (m : Int) := by
  induction m with
  | zero =>
    intro a b p h hp _ _
    refine ⟨p, ?_, rfl, rfl, by push_cast; ring⟩
    rw [show b = a from h]
    exact hp
  | succ m ih =>
    intro a b p h hp hpid hm
    obtain ⟨mid, hstep, hrest⟩ := h
    have hmid := cancelOf_promo_step hstep hp hpid
    have hm1 : ((1 : ℕ) : Int) ≤ p.used_count := by
      push_cast at hm ⊢
      omega
    have hmax : max 0 (p.used_count - 1) = p.used_count - 1 := by
      push_cast at hm1
      omega
    obtain ⟨p2, hb, hid, hul, huc⟩ := ih mid b _ hrest hmid hpid (by
      show (m : Int) ≤ max 0 (p.used_count - 1)
      rw [hmax]
      push_cast at hm ⊢
      omega)
    refine ⟨p2, hb, hid, hul, ?_⟩
    rw [huc]
    show max 0 (p.used_count - 1) - (m : Int) = p.used_count - ((m + 1 : ℕ) : Int)
    rw [hmax]
    push_cast
    ring

/-- **C9.** Promo counter conservation: starting from `used_count = 0`,
after `N` successful creates using the code followed by `M ≤ N` successful
cancellations of bookings referencing it, `used_count = N − M`; it is never
negative, and never exceeds a set (non-negative) usage limit. -/
theorem C9_promo_counter_conservation (c : String) (p0 : PromoCode) (pid : Nat)
    (N M : Nat) (db0 db1 db2 : DB)
    (hM : M ≤ N)
    (hp0 : findPromoByCode db0 c = some p0)
    (hpid : p0.id = pid)
    (hc0 : p0.used_count = 0)
    (hL0 : ∀ L, p0.usage_limit = some L → 0 ≤ L)
    (h1 : StepN (CreateUse c) N db0 db1)
    (h2 : StepN (CancelOf pid) M db1 db2) :
    ∃ p2, findPromoByCode db2 c = some p2 ∧
      p2.used_count = (N : Int) - (M : Int) ∧
      0 ≤ p2.used_count ∧
      (∀ L, p2.usage_limit = some L → p2.used_count ≤ L) := by
  obtain ⟨p1, hdb1, hid1, hul1, huc1, hlim⟩ := createUse_chain c N db0 db1 p0 h1 hp0
  obtain ⟨p2, hdb2, hid2, hul2, huc2⟩ := cancelOf_chain c pid M db1 db2 p1 h2 hdb1
    (hid1.trans hpid)
    (by rw [huc1, hc0]; push_cast; omega)
  refine ⟨p2, hdb2, ?_, ?_, ?_⟩
  · rw [huc2, huc1, hc0]
    ring
  · rw [huc2, huc1, hc0]
    push_cast
    omega
  · intro L hL
    rw [hul2, hul1] at hL
    rw [huc2, huc1, hc0]
    rcases hlim L hL with h0 | hle
    · subst h0
      have hM0 : M = 0 := Nat.le_zero.1 hM
      subst hM0
      have := hL0 L hL
      push_cast
      omega
    · rw [hc0] at hle
      push_cast at hle ⊢
      omega

/-- Witness for C9: two concrete creates with `SAVE` followed by one
cancellation leave `used_count = 1`, non-negative and within the limit. -/
theorem C9_promo_counter_conservation_witness :
    ∃ p2, findPromoByCode c9dbC "SAVE" = some p2 ∧
      p2.used_count = (2 : Int) - (1 : Int) ∧
      0 ≤ p2.used_count ∧
      (∀ L, p2.usage_limit = some L → p2.used_count ≤ L) := by
  have hRA : CreateUse "SAVE" c9db c9dbA := ⟨0, 1, 1, [1], c9bkA, rfl⟩
  have hRB : CreateUse "SAVE" c9dbA c9dbB := ⟨0, 2, 1, [2], c9bkB, rfl⟩
  have h1 : StepN (CreateUse "SAVE") 2 c9db c9dbB := ⟨c9dbA, hRA, c9dbB, hRB, rfl⟩
  have hs : (cancel_booking c9dbB 20 1 1).2 = .ok () := rfl
  have hcp : cancel_booking c9dbB 20 1 1 = (c9dbC, .ok ()) := by
    rw [← hs]
    rfl
  have h2 : StepN (CancelOf 5) 1 c9dbB c9dbC := ⟨c9dbC, ⟨20, 1, 1, c9bkA, rfl, rfl, hcp⟩, rfl⟩
  exact C9_promo_counter_conservation "SAVE" c9promo 5 2 1 c9db c9dbB c9dbC
    (by omega) rfl rfl rfl (fun L hL => by injection hL with h; omega) h1 h2

/-- **C10.** Per-user promo eligibility counts the user's bookings that
reference the code regardless of status — cancelled ones included. If the
user already has `usage_per_user`-many bookings referencing the promo (here
all of them cancelled), `check_user_eligibility` is false, the promo
resolution step fails `PromoIneligible` for any subtotal, and a
booking-create that passes every earlier validation fails with exactly
that error. -/
theorem C10_eligibility_counts_cancelled (db : DB) (p : PromoCode) (uid : Nat) (k : Int)
    (hk : p.usage_per_user = some k)
    (hcount : (userPromoUsage db uid p.id : Int) = k)
    (hcanc : ∀ b ∈ db.bookings, b.user_id = uid → b.promo_code_id = some p.id →
      b.booking_status = .cancelled) :
    p.check_user_eligibility db uid = false ∧
    (∀ now subtotal c, findPromoByCode db c = some p → p.is_valid now = none →
      resolvePromo db now uid subtotal (some c) = .error .promoIneligible) ∧
    (∀ now tid sids trip c,
      sids.isEmpty = false → sids.Nodup →
      findTrip db tid = some trip → trip.status = .scheduled →
      ¬ trip.departure_time < now →
      (requestedSeats db tid sids).length = sids.length →
      ((requestedSeats db tid sids).any fun s => decide (s.status ≠ .available)) = false →
      ¬ trip.available_seats < (sids.length : Int) →
      findPromoByCode db c = some p → p.is_valid now = none →
      (create_booking db now uid tid sids (some c)).2 = .error .promoIneligible) := by
  have helig : p.check_user_eligibility db uid = false := by
    unfold PromoCode.check_user_eligibility
    rw [hk]
    simp [hcount]
  have hres : ∀ now subtotal c, findPromoByCode db c = some p → p.is_valid now = none →
      resolvePromo db now uid subtotal (some c) = .error .promoIneligible := by
    intro now subtotal c hfind hvalid
    unfold resolvePromo
    simp [hfind, hvalid, helig]
  refine ⟨helig, hres, ?_⟩
  intro now tid sids trip c hne hnd htrip hsch hdep hlen hany hcap hfindc hvalid
  unfold create_booking
  rw [hne]
  simp only [Bool.false_eq_true, if_false]
  rw [if_neg (by simp [hnd])]
  rw [htrip]
  simp only []
  rw [if_neg (by simp [hsch])]
  rw [if_neg hdep]
  rw [if_neg (by simp [hlen])]
  rw [if_neg (by simp only [hany]; simp)]
  rw [if_neg hcap]
  rw [hres now _ c hfindc hvalid]

/-- Witness for C10: user 1 has one *cancelled* booking with promo `ONCE`
(`usage_per_user = 1`); a fresh create by user 1 with `ONCE` fails the
eligibility check. -/
theorem C10_eligibility_counts_cancelled_witness :
    c10promo.check_user_eligibility c10db 1 = false ∧
    (create_booking c10db 10 1 1 [1] (some "ONCE")).2 = .error .promoIneligible := by
  have h := C10_eligibility_counts_cancelled c10db c10promo 1 1 rfl (by decide) (by decide)
  refine ⟨h.1, ?_⟩
  exact h.2.2 10 1 [1] c10trip "ONCE" (by decide) (by decide) (by decide) (by decide)
    (by decide) (by decide) (by decide) (by decide) (by decide) (by decide)

end FastBus
